import Mathlib

/-!
Shallow embedding of the observ-python client-side interception layer
(package `watchtower`): the message normalizer and completion-request
builder (`providers/base.py`), the per-provider adapter state machines
(`providers/anthropic.py`, `providers/mistral.py`, `providers/gemini.py`),
the wrap entry points and per-family callback reporters (`__init__.py`).

Dynamic Python values (dicts, attribute-bearing objects, lists, strings)
are embedded as the inductive `PyVal`; operations that can raise in Python
(indexing, attribute access without default, `len`, `+`) return
`Except PyErr`.  Network effects (the gateway decide POST, the real SDK
call, the callback POST) are supplied as an explicit environment, and the
adapter records its observable actions (decide posts, real-SDK
invocations, callback-reporter outcomes) in a log.
-/

/-- Embedding of the dynamic Python values this client manipulates.
`obj` models an attribute-bearing object (only `obj` has attributes,
mirroring `hasattr`/`getattr`); `dict` models a mapping with string keys. -/
inductive PyVal where
  | str (s : String)
  | int (n : Int)
  | pynone
  | list (xs : List PyVal)
  | dict (kvs : List (String × PyVal))
  | obj (attrs : List (String × PyVal))

/-- Exceptions the embedded Python code can raise. -/
inductive PyErr where
  | indexError
  | typeError
  | attributeError
  | keyError
  | networkError
  | statusError
  | jsonError
  deriving Repr, DecidableEq

/-- Embedding of Python truthiness (`bool(v)`). -/
def pyTruthy : PyVal → Bool
  | .str s => !s.isEmpty
  | .int n => n != 0
  | .pynone => false
  | .list xs => !xs.isEmpty
  | .dict kvs => !kvs.isEmpty
  | .obj _ => true

/-- Embedding of Python `str(v)`.  Atomic values render as CPython does;
the rendering of composite values (lists, dicts, objects: addresses,
element reprs) is abstracted to a fixed tag, which no property of the
spec observes. -/
def pyStr : PyVal → String
  | .str s => s
  | .int n => toString n
  | .pynone => "None"
  | .list _ => "[...]"
  | .dict _ => "{...}"
  | .obj _ => "<object>"

/-- Embedding of Python `v[0]`: first element of a list, first character
of a string; raises `IndexError` when empty, `KeyError` on a dict and
`TypeError` on non-subscriptable values. -/
def pyIndex0 : PyVal → Except PyErr PyVal
  | .list [] => .error .indexError
  | .list (x :: _) => .ok x
  | .str s =>
    match s.data with
    | [] => .error .indexError
    | c :: _ => .ok (.str c.toString)
  | .dict _ => .error .keyError
  | _ => .error .typeError

/-- Embedding of Python `len(v)`; raises `TypeError` on unsized values. -/
def pyLen : PyVal → Except PyErr Nat
  | .list xs => .ok xs.length
  | .str s => .ok s.length
  | .dict kvs => .ok kvs.length
  | _ => .error .typeError

/-- Embedding of `getattr(v, name)` without a default: only `obj` values
carry attributes; anything else (or a missing attribute) raises. -/
def pyAttr (v : PyVal) (name : String) : Except PyErr PyVal :=
  match v with
  | .obj attrs =>
    match attrs.lookup name with
    | some x => .ok x
    | none => .error .attributeError
  | _ => .error .attributeError

/-- Embedding of `getattr(v, name, default)`. -/
def pyAttrD (v : PyVal) (name : String) (d : PyVal) : PyVal :=
  match pyAttr v name with
  | .ok x => x
  | .error _ => d

/-- Embedding of `hasattr(v, name)`. -/
def pyHasattr (v : PyVal) (name : String) : Bool :=
  (pyAttr v name).isOk

/-- Embedding of Python `a + b` (ints add, strings and lists concatenate;
anything else raises `TypeError`). -/
def pyAdd : PyVal → PyVal → Except PyErr PyVal
  | .int a, .int b => .ok (.int (a + b))
  | .str a, .str b => .ok (.str (a ++ b))
  | .list a, .list b => .ok (.list (a ++ b))
  | _, _ => .error .typeError

/-- Embedding of `for x in v`: lists iterate their elements, strings their
characters, dicts their keys; anything else raises `TypeError`. -/
def pyIterate : PyVal → Except PyErr (List PyVal)
  | .list xs => .ok xs
  | .str s => .ok (s.data.map fun c => .str c.toString)
  | .dict kvs => .ok (kvs.map fun kv => .str kv.1)
  | _ => .error .typeError

/-- Canonical gateway message: the `\x7brole, content\x7d` wire shape.  Role
and content stay `PyVal` because the Python code forwards whatever value
the input carried. -/
structure GatewayMessage where
  role : PyVal
  content : PyVal

/-- Embedding of the per-message body of `convert_messages_to_gateway_format`
(`providers/base.py` lines 10-19): dicts use `.get` with defaults, other
values use `getattr` with defaults; never raises. -/
def convertMsg (msg : PyVal) : GatewayMessage :=
  match msg with
  | .dict kvs =>
    { role := (kvs.lookup "role").getD (.str "user")
      content := (kvs.lookup "content").getD (.str "") }
  | _ =>
    { role := pyAttrD msg "role" (.str "user")
      content := pyAttrD msg "content" (.str "") }

/-- Embedding of `convert_messages_to_gateway_format` (`providers/base.py`):
iterates the input (raising `TypeError` on a non-iterable, as `for msg in
messages` would) and normalizes each item. -/
def convert_messages_to_gateway_format (messages : PyVal) :
    Except PyErr (List GatewayMessage) :=
  (pyIterate messages).map fun items => items.map convertMsg

/-- Embedding of the `Observ` session object's fields set in
`Observ.__init__` (`__init__.py` lines 20-26); the HTTP client itself is
supplied as an effect environment at each call. -/
structure Observ where
  api_key : String
  project_id : String := "default"
  «recall» : Bool := false
  environment : String := "production"
  endpoint : String := "http://localhost:8080"

/-- Feature flags of the completion request envelope. -/
structure Features where
  trace : Bool
  «recall» : Bool
  resilience : Bool
  adapt : Bool
  deriving Repr, DecidableEq

/-- The completion request envelope sent to the gateway decide endpoint.
`external_session_id = none` models the key being absent from the JSON
object. -/
structure CompletionRequest where
  provider : String
  model : String
  messages : List GatewayMessage
  features : Features
  environment : String
  metadata : List (String × PyVal)
  external_session_id : Option String

/-- Embedding of `build_completion_request` (`providers/base.py` lines
23-40).  The `if session_id:` guard is Python truthiness: the key is set
only when the session id is a non-empty string. -/
def build_completion_request (provider : String) (model : String)
    (gateway_messages : List GatewayMessage) (observ_instance : Observ)
    (metadata : List (String × PyVal)) (session_id : Option String) :
    CompletionRequest :=
  { provider := provider
    model := model
    messages := gateway_messages
    features :=
      { trace := true
        «recall» := observ_instance.«recall»
        resilience := false
        adapt := false }
    environment := observ_instance.environment
    metadata := metadata
    external_session_id :=
      match session_id with
      | some s => if s.isEmpty then none else some s
      | none => none }

/-- Canonical callback payload posted to the gateway callback endpoint. -/
structure CallbackPayload where
  trace_id : PyVal
  content : PyVal
  duration_ms : Nat
  tokens_used : PyVal

/-- Outcome of a callback reporter run: either the payload was posted, or
some internal exception was caught by the `except` clause and logged. -/
inductive CallbackResult where
  | posted (p : CallbackPayload)
  | logged (e : PyErr)

/-- Shared try/except skeleton of the four callback reporters: the whole
body (field extraction followed by the POST) runs inside `try`, and any
exception is caught and turned into a log line. -/
def runCallback (body : Except PyErr CallbackPayload)
    (post : Except PyErr Unit) : CallbackResult :=
  match body with
  | .error e => .logged e
  | .ok p =>
    match post with
    | .error e => .logged e
    | .ok _ => .posted p

/-- Embedding of the try-block body of `Observ._send_callback`
(`__init__.py` lines 95-109): Anthropic-family field extraction. -/
def send_callback_body (trace_id : PyVal) (response : PyVal)
    (duration_ms : Nat) : Except PyErr CallbackPayload := do
  let content ←
    if pyHasattr response "content" then do
      let c := pyAttrD response "content" .pynone
      let n ← pyLen c
      if n > 0 then do
        let c0 ← pyIndex0 c
        pyAttr c0 "text"
      else pure (.str "")
    else pure (.str "")
  let tokens_used ←
    if pyHasattr response "usage" then
      let usage := pyAttrD response "usage" .pynone
      pyAdd (pyAttrD usage "input_tokens" (.int 0))
        (pyAttrD usage "output_tokens" (.int 0))
    else pure (.int 0)
  pure { trace_id, content, duration_ms, tokens_used }

/-- Embedding of `Observ._send_callback` (`__init__.py` lines 93-117):
extraction and POST inside try, any exception caught and logged. -/
def send_callback (post : Except PyErr Unit) (trace_id : PyVal)
    (response : PyVal) (duration_ms : Nat) : CallbackResult :=
  runCallback (send_callback_body trace_id response duration_ms) post

/-- Embedding of the try-block body of `Observ._send_callback_openai`
(`__init__.py` lines 121-141): OpenAI-family field extraction.  Note
`message.content or ""` replaces any falsy content value by the empty
string. -/
def send_callback_openai_body (trace_id : PyVal) (response : PyVal)
    (duration_ms : Nat) : Except PyErr CallbackPayload := do
  let content ←
    if pyHasattr response "choices" then do
      let cs := pyAttrD response "choices" .pynone
      let n ← pyLen cs
      if n > 0 then do
        let c0 ← pyIndex0 cs
        let message ← pyAttr c0 "message"
        if pyHasattr message "content" then
          let c := pyAttrD message "content" .pynone
          pure (if pyTruthy c then c else .str "")
        else pure (.str "")
      else pure (.str "")
    else pure (.str "")
  let tokens_used ←
    if pyHasattr response "usage" then
      let usage := pyAttrD response "usage" .pynone
      if pyHasattr usage "total_tokens" then
        pure (pyAttrD usage "total_tokens" .pynone)
      else if pyHasattr usage "prompt_tokens" && pyHasattr usage "completion_tokens" then
        pyAdd (pyAttrD usage "prompt_tokens" .pynone)
          (pyAttrD usage "completion_tokens" .pynone)
      else pure (.int 0)
    else pure (.int 0)
  pure { trace_id, content, duration_ms, tokens_used }

/-- Embedding of `Observ._send_callback_openai` (`__init__.py` lines
119-149). -/
def send_callback_openai (post : Except PyErr Unit) (trace_id : PyVal)
    (response : PyVal) (duration_ms : Nat) : CallbackResult :=
  runCallback (send_callback_openai_body trace_id response duration_ms) post

/-- Embedding of the try-block body of `Observ._send_callback_gemini`
(`__init__.py` lines 153-176): Gemini-family field extraction. -/
def send_callback_gemini_body (trace_id : PyVal) (response : PyVal)
    (duration_ms : Nat) : Except PyErr CallbackPayload := do
  let content ←
    if pyHasattr response "text" then
      pure (pyAttrD response "text" .pynone)
    else if pyHasattr response "candidates" then do
      let cands := pyAttrD response "candidates" .pynone
      let n ← pyLen cands
      if n > 0 then do
        let candidate ← pyIndex0 cands
        if pyHasattr candidate "content" &&
            pyHasattr (pyAttrD candidate "content" .pynone) "parts" then do
          let parts := pyAttrD (pyAttrD candidate "content" .pynone) "parts" .pynone
          let np ← pyLen parts
          if np > 0 then do
            let p0 ← pyIndex0 parts
            pyAttr p0 "text"
          else pure (.str "")
        else pure (.str "")
      else pure (.str "")
    else pure (.str "")
  let tokens_used ←
    if pyHasattr response "usage_metadata" then
      let usage := pyAttrD response "usage_metadata" .pynone
      if pyHasattr usage "total_token_count" then
        pure (pyAttrD usage "total_token_count" .pynone)
      else if pyHasattr usage "prompt_token_count" && pyHasattr usage "candidates_token_count" then
        pyAdd (pyAttrD usage "prompt_token_count" .pynone)
          (pyAttrD usage "candidates_token_count" .pynone)
      else pure (.int 0)
    else pure (.int 0)
  pure { trace_id, content, duration_ms, tokens_used }

/-- Embedding of `Observ._send_callback_gemini` (`__init__.py` lines
151-184). -/
def send_callback_gemini (post : Except PyErr Unit) (trace_id : PyVal)
    (response : PyVal) (duration_ms : Nat) : CallbackResult :=
  runCallback (send_callback_gemini_body trace_id response duration_ms) post

/-- Embedding of the try-block body of `Observ._send_callback_mistral`
(`__init__.py` lines 188-208); the source duplicates the OpenAI-family
extraction verbatim. -/
def send_callback_mistral_body (trace_id : PyVal) (response : PyVal)
    (duration_ms : Nat) : Except PyErr CallbackPayload := do
  let content ←
    if pyHasattr response "choices" then do
      let cs := pyAttrD response "choices" .pynone
      let n ← pyLen cs
      if n > 0 then do
        let c0 ← pyIndex0 cs
        let message ← pyAttr c0 "message"
        if pyHasattr message "content" then
          let c := pyAttrD message "content" .pynone
          pure (if pyTruthy c then c else .str "")
        else pure (.str "")
      else pure (.str "")
    else pure (.str "")
  let tokens_used ←
    if pyHasattr response "usage" then
      let usage := pyAttrD response "usage" .pynone
      if pyHasattr usage "total_tokens" then
        pure (pyAttrD usage "total_tokens" .pynone)
      else if pyHasattr usage "prompt_tokens" && pyHasattr usage "completion_tokens" then
        pyAdd (pyAttrD usage "prompt_tokens" .pynone)
          (pyAttrD usage "completion_tokens" .pynone)
      else pure (.int 0)
    else pure (.int 0)
  pure { trace_id, content, duration_ms, tokens_used }

/-- Embedding of `Observ._send_callback_mistral` (`__init__.py` lines
186-216). -/
def send_callback_mistral (post : Except PyErr Unit) (trace_id : PyVal)
    (response : PyVal) (duration_ms : Nat) : CallbackResult :=
  runCallback (send_callback_mistral_body trace_id response duration_ms) post

/-- Per-adapter-instance pending chained state (`_metadata`, `_session_id`
fields set in each wrapper's `__init__`). -/
structure WrapperState where
  metadata : List (String × PyVal)
  sessionId : Option String

/-- Initial wrapper state: empty metadata dict, no session id. -/
def WrapperState.init : WrapperState := { metadata := [], sessionId := none }

/-- Embedding of `with_metadata` (identical in all three wrapper classes):
stores the metadata for the next call and returns self. -/
def WrapperState.with_metadata (st : WrapperState)
    (metadata : List (String × PyVal)) : WrapperState :=
  { st with metadata := metadata }

/-- Embedding of `with_session_id` (identical in all three wrapper
classes): stores the session id for the next call and returns self. -/
def WrapperState.with_session_id (st : WrapperState) (session_id : String) :
    WrapperState :=
  { st with sessionId := some session_id }

/-- Effect environment of one intercepted call: the outcome of the gateway
decide POST (`post` + `raise_for_status` + `.json()`, collapsed into one
`Except`), the outcome of the n-th invocation of the real wrapped SDK call
on given arguments, the measured wall-clock duration, and the outcome of
the callback POST. -/
structure Env (α : Type) where
  decide : Except PyErr PyVal
  real : α → Nat → Except PyErr PyVal
  duration_ms : Nat
  callbackPost : Except PyErr Unit

/-- Observable actions of one intercepted call: request envelopes handed to
the decide POST, the argument list of each real-SDK invocation in order,
and the outcomes of callback-reporter runs. -/
structure CreateLog (α : Type) where
  posts : List CompletionRequest
  realArgs : List α
  callbacks : List CallbackResult

/-- Value returned by an intercepted call: either a synthesized (cache-hit)
response of the provider's shape, or the real SDK response passed through
unchanged. -/
inductive CreateResult (σ : Type) where
  | synthesized (s : σ)
  | real (r : PyVal)

/-- Fallback of the `except` branch: the direct SDK call's outcome is
returned as-is — its response passes through, its exception escapes. -/
def fallbackResult {σ : Type} (r : Except PyErr PyVal) :
    Except PyErr (CreateResult σ) :=
  match r with
  | .error e => .error e
  | .ok v => .ok (.real v)

/-- Embedding of `gateway_response.get("action") == "cache_hit"`: in Python
only an equal string compares equal to a string literal. -/
def isCacheHit : PyVal → Bool
  | .str s => s == "cache_hit"
  | _ => false

/-- Positional/keyword arguments of an Anthropic/Mistral/OpenAI-shaped
`create` call: `posMessages` models `args[0]`, `posModel` models
`args[1]`, the other two model the `messages` and `model` keyword
arguments. -/
structure CallArgs where
  posMessages : Option PyVal
  posModel : Option String
  kwMessages : Option PyVal
  kwModel : Option String

/-- Embedding of `kwargs.get("messages", args[0] if args else [])`. -/
def CallArgs.messages (a : CallArgs) : PyVal :=
  a.kwMessages.getD (a.posMessages.getD (.list []))

/-- Embedding of `kwargs.get("model", args[1] if len(args) > 1 else d)`. -/
def CallArgs.modelOr (a : CallArgs) (d : String) : String :=
  a.kwModel.getD (a.posModel.getD d)

/-- Usage block of the synthesized Anthropic message. -/
structure AnthropicUsage where
  input_tokens : Int
  output_tokens : Int
  deriving Repr, DecidableEq

/-- Text block of the synthesized Anthropic message. -/
structure AnthropicTextBlock where
  text : PyVal
  type : String

/-- Synthesized Anthropic `Message` fabricated on a cache hit
(`providers/anthropic.py` lines 62-74). -/
structure SynthAnthropicMessage where
  content : List AnthropicTextBlock
  role : String
  model : String
  stop_reason : String
  usage : AnthropicUsage

/-- Builder of the synthesized Anthropic message, field for field as the
`type(\x27Message\x27, ...)` call fabricates it. -/
def synthAnthropicMessage (cached_content : PyVal) (model : String) :
    SynthAnthropicMessage :=
  { content := [{ text := cached_content, type := "text" }]
    role := "assistant"
    model := model
    stop_reason := "end_turn"
    usage := { input_tokens := 0, output_tokens := 0 } }

/-- Usage block of the synthesized OpenAI-shaped/Mistral response. -/
structure MistralUsage where
  prompt_tokens : Int
  completion_tokens : Int
  total_tokens : Int
  deriving Repr, DecidableEq

/-- Message of the synthesized OpenAI-shaped/Mistral choice. -/
structure MistralMessage where
  role : String
  content : PyVal

/-- Choice of the synthesized OpenAI-shaped/Mistral response. -/
structure MistralChoice where
  message : MistralMessage
  finish_reason : String

/-- Synthesized `ChatCompletionResponse` fabricated on a cache hit
(`providers/mistral.py` lines 57-71; same shape for the OpenAI family). -/
structure SynthChatCompletionResponse where
  choices : List MistralChoice
  model : String
  usage : MistralUsage

/-- Builder of the synthesized OpenAI-shaped/Mistral response, field for
field as the source fabricates it. -/
def synthChatCompletionResponse (cached_content : PyVal) (model : String) :
    SynthChatCompletionResponse :=
  { choices :=
      [{ message := { role := "assistant", content := cached_content }
         finish_reason := "stop" }]
    model := model
    usage := { prompt_tokens := 0, completion_tokens := 0, total_tokens := 0 } }

/-- Part of the synthesized Gemini candidate content. -/
structure GeminiPart where
  text : PyVal

/-- Content of the synthesized Gemini candidate. -/
structure GeminiContent where
  parts : List GeminiPart
  role : String

/-- Candidate of the synthesized Gemini response. -/
structure GeminiCandidate where
  content : GeminiContent

/-- Usage metadata of the synthesized Gemini response. -/
structure GeminiUsageMetadata where
  prompt_token_count : Int
  candidates_token_count : Int
  total_token_count : Int
  deriving Repr, DecidableEq

/-- Synthesized `GenerateContentResponse` fabricated on a cache hit
(`providers/gemini.py` lines 78-91). -/
structure SynthGenerateContentResponse where
  text : PyVal
  candidates : List GeminiCandidate
  usage_metadata : GeminiUsageMetadata

/-- Builder of the synthesized Gemini response, field for field as the
source fabricates it. -/
def synthGenerateContentResponse (cached_content : PyVal) :
    SynthGenerateContentResponse :=
  { text := cached_content
    candidates :=
      [{ content := { parts := [{ text := cached_content }], role := "model" } }]
    usage_metadata :=
      { prompt_token_count := 0, candidates_token_count := 0
        total_token_count := 0 } }

/-- Embedding of `AnthropicMessagesWrapper.create` (`providers/anthropic.py`
lines 27-93).  The pending chained state is consumed and reset before
anything else; message conversion and request building happen before the
try block (an exception there escapes); everything from the decide POST to
the callback is inside the try, and the `except` branch falls back to a
direct SDK call whose outcome — response or exception — goes to the
caller. -/
def AnthropicMessagesWrapper.create (env : Env CallArgs) (wt : Observ)
    (st : WrapperState) (a : CallArgs) :
    Except PyErr (CreateResult SynthAnthropicMessage) × WrapperState ×
      CreateLog CallArgs :=
  let metadata := st.metadata
  let session_id := st.sessionId
  let st1 := WrapperState.init
  let messages := a.messages
  let model := a.modelOr "claude-3-5-sonnet-20241022"
  match convert_messages_to_gateway_format messages with
  | .error e => (.error e, st1, { posts := [], realArgs := [], callbacks := [] })
  | .ok gateway_messages =>
    let completion_request :=
      build_completion_request "anthropic" model gateway_messages wt metadata
        session_id
    match env.decide with
    | .error _ =>
      (fallbackResult (env.real a 0), st1,
        { posts := [completion_request], realArgs := [a], callbacks := [] })
    | .ok gateway_response =>
      match gateway_response with
      | .dict kvs =>
        if isCacheHit ((kvs.lookup "action").getD .pynone) then
          let cached_content := (kvs.lookup "content").getD (.str "")
          (.ok (.synthesized (synthAnthropicMessage cached_content model)), st1,
            { posts := [completion_request], realArgs := [], callbacks := [] })
        else
          let trace_id := (kvs.lookup "trace_id").getD .pynone
          match env.real a 0 with
          | .error _ =>
            (fallbackResult (env.real a 1), st1,
              { posts := [completion_request], realArgs := [a, a]
                callbacks := [] })
          | .ok actual_response =>
            let cb := send_callback env.callbackPost trace_id actual_response
              env.duration_ms
            (.ok (.real actual_response), st1,
              { posts := [completion_request], realArgs := [a]
                callbacks := [cb] })
      | _ =>
        (fallbackResult (env.real a 0), st1,
          { posts := [completion_request], realArgs := [a], callbacks := [] })

/-- Embedding of `MistralChatCompletionsWrapper.create`
(`providers/mistral.py` lines 27-85): same state machine as the Anthropic
wrapper with the Mistral provider tag, default model, synthesized shape
and callback reporter. -/
def MistralChatCompletionsWrapper.create (env : Env CallArgs) (wt : Observ)
    (st : WrapperState) (a : CallArgs) :
    Except PyErr (CreateResult SynthChatCompletionResponse) × WrapperState ×
      CreateLog CallArgs :=
  let metadata := st.metadata
  let session_id := st.sessionId
  let st1 := WrapperState.init
  let messages := a.messages
  let model := a.modelOr "mistral-large-latest"
  match convert_messages_to_gateway_format messages with
  | .error e => (.error e, st1, { posts := [], realArgs := [], callbacks := [] })
  | .ok gateway_messages =>
    let completion_request :=
      build_completion_request "mistral" model gateway_messages wt metadata
        session_id
    match env.decide with
    | .error _ =>
      (fallbackResult (env.real a 0), st1,
        { posts := [completion_request], realArgs := [a], callbacks := [] })
    | .ok gateway_response =>
      match gateway_response with
      | .dict kvs =>
        if isCacheHit ((kvs.lookup "action").getD .pynone) then
          let cached_content := (kvs.lookup "content").getD (.str "")
          (.ok (.synthesized (synthChatCompletionResponse cached_content model)),
            st1,
            { posts := [completion_request], realArgs := [], callbacks := [] })
        else
          let trace_id := (kvs.lookup "trace_id").getD .pynone
          match env.real a 0 with
          | .error _ =>
            (fallbackResult (env.real a 1), st1,
              { posts := [completion_request], realArgs := [a, a]
                callbacks := [] })
          | .ok actual_response =>
            let cb := send_callback_mistral env.callbackPost trace_id
              actual_response env.duration_ms
            (.ok (.real actual_response), st1,
              { posts := [completion_request], realArgs := [a]
                callbacks := [cb] })
      | _ =>
        (fallbackResult (env.real a 0), st1,
          { posts := [completion_request], realArgs := [a], callbacks := [] })

/-- Positional/keyword arguments of a Gemini `generate_content` call:
`pos0` models `args[0]`, the other two the `prompt` and `contents` keyword
arguments. -/
structure GeminiArgs where
  pos0 : Option PyVal
  kwPrompt : Option PyVal
  kwContents : Option PyVal

/-- Embedding of `kwargs.get("prompt") or kwargs.get("contents") or
(args[0] if args else "")`: Python `or` returns the first truthy operand,
or the last operand's value when all are falsy. -/
def GeminiArgs.prompt (a : GeminiArgs) : PyVal :=
  let p1 := a.kwPrompt.getD .pynone
  if pyTruthy p1 then p1
  else
    let p2 := a.kwContents.getD .pynone
    if pyTruthy p2 then p2
    else a.pos0.getD (.str "")

/-- Embedding of the per-item body of the Gemini inline normalizer
(`providers/gemini.py` lines 43-55).  For a dict item Python evaluates the
fallback expression `str(item.get("parts", [""])[0])` eagerly — before
`item.get("content", ...)` consults the `content` key — so an empty or
non-subscriptable `parts` value raises even when `content` is present. -/
def geminiNormalizeItem (item : PyVal) : Except PyErr GatewayMessage :=
  match item with
  | .dict kvs => do
    let partsHead ← pyIndex0 ((kvs.lookup "parts").getD (.list [.str ""]))
    let contentDefault := PyVal.str (pyStr partsHead)
    pure { role := (kvs.lookup "role").getD (.str "user")
           content := (kvs.lookup "content").getD contentDefault }
  | _ =>
    if pyHasattr item "parts" then do
      let parts := pyAttrD item "parts" .pynone
      if pyTruthy parts then do
        let p0 ← pyIndex0 parts
        let t ← pyAttr p0 "text"
        pure { role := .str "user", content := t }
      else
        pure { role := .str "user", content := .str "" }
    else
      pure { role := .str "user", content := .str (pyStr item) }

/-- Embedding of the Gemini prompt normalization (`providers/gemini.py`
lines 39-57): a raw string becomes a single user message, a list is
normalized item by item, anything else is `str()`-converted into a single
user message. -/
def geminiNormalizePrompt (prompt : PyVal) :
    Except PyErr (List GatewayMessage) :=
  match prompt with
  | .str s => .ok [{ role := .str "user", content := .str s }]
  | .list items => items.mapM geminiNormalizeItem
  | _ => .ok [{ role := .str "user", content := .str (pyStr prompt) }]

/-- Embedding of `GeminiGenerateContentWrapper.generate_content`
(`providers/gemini.py` lines 27-105).  `modelName` models
`getattr(self._original_model, "_model_name", "gemini-pro")`.  The inline
normalization runs before the try block, so its exceptions escape the
call. -/
def GeminiGenerateContentWrapper.generate_content (env : Env GeminiArgs)
    (wt : Observ) (modelName : Option String) (st : WrapperState)
    (a : GeminiArgs) :
    Except PyErr (CreateResult SynthGenerateContentResponse) × WrapperState ×
      CreateLog GeminiArgs :=
  let metadata := st.metadata
  let session_id := st.sessionId
  let st1 := WrapperState.init
  let prompt := a.prompt
  let model := modelName.getD "gemini-pro"
  match geminiNormalizePrompt prompt with
  | .error e => (.error e, st1, { posts := [], realArgs := [], callbacks := [] })
  | .ok gateway_messages =>
    let completion_request :=
      build_completion_request "gemini" model gateway_messages wt metadata
        session_id
    match env.decide with
    | .error _ =>
      (fallbackResult (env.real a 0), st1,
        { posts := [completion_request], realArgs := [a], callbacks := [] })
    | .ok gateway_response =>
      match gateway_response with
      | .dict kvs =>
        if isCacheHit ((kvs.lookup "action").getD .pynone) then
          let cached_content := (kvs.lookup "content").getD (.str "")
          (.ok (.synthesized (synthGenerateContentResponse cached_content)), st1,
            { posts := [completion_request], realArgs := [], callbacks := [] })
        else
          let trace_id := (kvs.lookup "trace_id").getD .pynone
          match env.real a 0 with
          | .error _ =>
            (fallbackResult (env.real a 1), st1,
              { posts := [completion_request], realArgs := [a, a]
                callbacks := [] })
          | .ok actual_response =>
            let cb := send_callback_gemini env.callbackPost trace_id
              actual_response env.duration_ms
            (.ok (.real actual_response), st1,
              { posts := [completion_request], realArgs := [a]
                callbacks := [cb] })
      | _ =>
        (fallbackResult (env.real a 0), st1,
          { posts := [completion_request], realArgs := [a], callbacks := [] })

/-- Modelled from the spec: the OpenAI-compatible adapter
(`providers/openai.py`, `providers/xai.py`, `providers/openrouter.py`) is
imported by the package but its source file is not under src/.  Per spec
sections 2 and 4.5 it runs the same state machine as the other adapters,
with an OpenAI-shaped synthesized response (section 4.4: choice list with
`message.content`, `finish_reason` stop, zeroed usage) and the
OpenAI-family callback reporter; the provider tag and default model string
are parameters because the spec does not fix them. -/
def OpenAICompatWrapper.create (provider defaultModel : String)
    (env : Env CallArgs) (wt : Observ) (st : WrapperState) (a : CallArgs) :
    Except PyErr (CreateResult SynthChatCompletionResponse) × WrapperState ×
      CreateLog CallArgs :=
  let metadata := st.metadata
  let session_id := st.sessionId
  let st1 := WrapperState.init
  let messages := a.messages
  let model := a.modelOr defaultModel
  match convert_messages_to_gateway_format messages with
  | .error e => (.error e, st1, { posts := [], realArgs := [], callbacks := [] })
  | .ok gateway_messages =>
    let completion_request :=
      build_completion_request provider model gateway_messages wt metadata
        session_id
    match env.decide with
    | .error _ =>
      (fallbackResult (env.real a 0), st1,
        { posts := [completion_request], realArgs := [a], callbacks := [] })
    | .ok gateway_response =>
      match gateway_response with
      | .dict kvs =>
        if isCacheHit ((kvs.lookup "action").getD .pynone) then
          let cached_content := (kvs.lookup "content").getD (.str "")
          (.ok (.synthesized (synthChatCompletionResponse cached_content model)),
            st1,
            { posts := [completion_request], realArgs := [], callbacks := [] })
        else
          let trace_id := (kvs.lookup "trace_id").getD .pynone
          match env.real a 0 with
          | .error _ =>
            (fallbackResult (env.real a 1), st1,
              { posts := [completion_request], realArgs := [a, a]
                callbacks := [] })
          | .ok actual_response =>
            let cb := send_callback_openai env.callbackPost trace_id
              actual_response env.duration_ms
            (.ok (.real actual_response), st1,
              { posts := [completion_request], realArgs := [a]
                callbacks := [cb] })
      | _ =>
        (fallbackResult (env.real a 0), st1,
          { posts := [completion_request], realArgs := [a], callbacks := [] })

/-- Kind tag of the live client instance handed to a wrap entry point. -/
inductive ClientKind where
  | anthropicClient
  | openaiClient
  | geminiModel
  | mistralClient
  | otherClient
  deriving Repr, DecidableEq

/-- Outcome of a wrap entry point. -/
inductive WrapOutcome where
  | wrapped
  | importError
  | typeError
  | attributeError
  deriving Repr, DecidableEq

/-- Embedding of `Observ.anthropic` (`__init__.py` lines 28-31).  The body
executes `client.messages = AnthropicMessagesWrapper(client.messages,
self)`; Python evaluates the right-hand side first, so the read of
`client.messages` raises AttributeError when the handed instance lacks
that attribute, and otherwise the attribute is replaced and the client
returned.  There is no isinstance check and no import guard (the anthropic
package is imported unconditionally at module top), so neither TypeError
nor ImportError is raised at wrap time: the outcome depends only on the
duck-typed presence of `.messages`, never on the instance's kind. -/
def Observ.anthropic (_client : ClientKind) (clientHasMessages : Bool) :
    WrapOutcome :=
  if clientHasMessages then .wrapped else .attributeError

/-- Embedding of `Observ.openai` (`__init__.py` lines 33-42): ImportError
when the openai package is absent, TypeError when the instance is not an
`openai.OpenAI` client. -/
def Observ.openai (openaiInstalled : Bool) (client : ClientKind) :
    WrapOutcome :=
  if openaiInstalled then
    if client = .openaiClient then .wrapped else .typeError
  else .importError

/-- Embedding of `Observ.gemini` (`__init__.py` lines 44-58). -/
def Observ.gemini (geminiInstalled : Bool) (model : ClientKind) :
    WrapOutcome :=
  if geminiInstalled then
    if model = .geminiModel then .wrapped else .typeError
  else .importError

/-- Embedding of `Observ.xai` (`__init__.py` lines 60-69): expects an
`openai.OpenAI` client like `Observ.openai`. -/
def Observ.xai (openaiInstalled : Bool) (client : ClientKind) :
    WrapOutcome :=
  if openaiInstalled then
    if client = .openaiClient then .wrapped else .typeError
  else .importError

/-- Embedding of `Observ.mistral` (`__init__.py` lines 71-80). -/
def Observ.mistral (mistralInstalled : Bool) (client : ClientKind) :
    WrapOutcome :=
  if mistralInstalled then
    if client = .mistralClient then .wrapped else .typeError
  else .importError

/-- Embedding of `Observ.openrouter` (`__init__.py` lines 82-91): expects
an `openai.OpenAI` client like `Observ.openai`. -/
def Observ.openrouter (openaiInstalled : Bool) (client : ClientKind) :
    WrapOutcome :=
  if openaiInstalled then
    if client = .openaiClient then .wrapped else .typeError
  else .importError

/-- Helper: a callback reporter built from the shared try/except skeleton
always yields a posted payload or a logged error. -/
theorem runCallback_posted_or_logged (body : Except PyErr CallbackPayload)
    (post : Except PyErr Unit) :
    (∃ p, runCallback body post = .posted p) ∨
      (∃ e, runCallback body post = .logged e) := by
  cases body with
  | error e => exact Or.inr ⟨e, rfl⟩
  | ok p =>
    cases post with
    | error e => exact Or.inr ⟨e, by simp [runCallback]⟩
    | ok u => exact Or.inl ⟨p, by simp [runCallback]⟩

/-- C7: every completion request envelope produced by the request builder,
for any provider, model, messages, metadata and session state, has
`features.trace = true`, `features.resilience = false` and
`features.adapt = false`, with `features.recall` and `environment` taken
from the owning session object. -/
theorem c7_features_invariant (provider model : String)
    (gateway_messages : List GatewayMessage) (observ_instance : Observ)
    (metadata : List (String × PyVal)) (session_id : Option String) :
    (build_completion_request provider model gateway_messages observ_instance
        metadata session_id).features
      = { trace := true, «recall» := observ_instance.«recall»
          resilience := false, adapt := false } ∧
    (build_completion_request provider model gateway_messages observ_instance
        metadata session_id).environment = observ_instance.environment :=
  ⟨rfl, rfl⟩

/-- C4: the base message normalizer never raises on any input sequence,
but the Gemini-variant normalizer raises `IndexError` on a dict item whose
`parts` key holds an empty list — `str(item.get("parts", [""])[0])` is
evaluated eagerly as the default of `item.get("content", ...)` — even when
a `content` key is present, contradicting the contract that the normalizer
never raises and that an empty parts collection yields empty content. -/
theorem c4_normalizer_empty_parts_raises :
    (∀ msgs : List PyVal,
      (convert_messages_to_gateway_format (.list msgs)).isOk = true) ∧
    geminiNormalizePrompt (.list [.dict [("parts", .list [])]])
      = .error .indexError ∧
    geminiNormalizePrompt
        (.list [.dict [("content", .str "hi"), ("parts", .list [])]])
      = .error .indexError :=
  ⟨fun _ => rfl, rfl, rfl⟩

/-- C8: for every provider response object, trace id, duration and
callback-POST outcome, each of the four callback reporters returns a
posted-or-logged outcome — the except clause catches every extraction or
network failure, and no exception reaches the caller. -/
theorem c8_callback_never_raises (post : Except PyErr Unit)
    (trace_id : PyVal) (response : PyVal) (duration_ms : Nat) :
    ((∃ p, send_callback post trace_id response duration_ms = .posted p) ∨
      (∃ e, send_callback post trace_id response duration_ms = .logged e)) ∧
    ((∃ p, send_callback_openai post trace_id response duration_ms = .posted p) ∨
      (∃ e, send_callback_openai post trace_id response duration_ms = .logged e)) ∧
    ((∃ p, send_callback_gemini post trace_id response duration_ms = .posted p) ∨
      (∃ e, send_callback_gemini post trace_id response duration_ms = .logged e)) ∧
    ((∃ p, send_callback_mistral post trace_id response duration_ms = .posted p) ∨
      (∃ e, send_callback_mistral post trace_id response duration_ms = .logged e)) :=
  ⟨runCallback_posted_or_logged _ _, runCallback_posted_or_logged _ _,
    runCallback_posted_or_logged _ _, runCallback_posted_or_logged _ _⟩

/-- C9 counterexample: handing the Anthropic wrap entry point an instance
that is not an Anthropic client never raises a type error — a wrong-type
instance lacking a `.messages` attribute raises AttributeError from the
attribute read instead, and a wrong-type instance that does expose
`.messages` is wrapped and returned without any error. -/
theorem c9_counterexample_anthropic_no_type_check :
    Observ.anthropic ClientKind.mistralClient false
      = WrapOutcome.attributeError ∧
    Observ.anthropic ClientKind.mistralClient true = WrapOutcome.wrapped ∧
    Observ.anthropic ClientKind.mistralClient false ≠ WrapOutcome.typeError ∧
    Observ.anthropic ClientKind.mistralClient true ≠ WrapOutcome.typeError := by
  exact ⟨rfl, rfl, by decide, by decide⟩

/-- C9 amended: the Mistral, Gemini, OpenAI, xAI and OpenRouter wrap entry
points raise a capability-missing (import) error when the corresponding
provider package is absent and a type error when the passed instance is
not of the expected client type; the Anthropic wrap entry point performs
neither check (the anthropic package is a hard top-level dependency): its
outcome depends only on whether the handed instance exposes a `.messages`
attribute — wrapped when it does, AttributeError from the attribute read
when it does not — and is never a TypeError or an ImportError. -/
theorem c9_amended_wrap_entry_points :
    (∀ c b, Observ.anthropic c b
      = if b then WrapOutcome.wrapped else WrapOutcome.attributeError) ∧
    (∀ c b, Observ.anthropic c b ≠ WrapOutcome.typeError) ∧
    (∀ c b, Observ.anthropic c b ≠ WrapOutcome.importError) ∧
    (∀ c, Observ.openai false c = WrapOutcome.importError) ∧
    (∀ c, Observ.openai true c
      = if c = ClientKind.openaiClient then WrapOutcome.wrapped
        else WrapOutcome.typeError) ∧
    (∀ c, Observ.gemini false c = WrapOutcome.importError) ∧
    (∀ c, Observ.gemini true c
      = if c = ClientKind.geminiModel then WrapOutcome.wrapped
        else WrapOutcome.typeError) ∧
    (∀ c, Observ.xai false c = WrapOutcome.importError) ∧
    (∀ c, Observ.xai true c
      = if c = ClientKind.openaiClient then WrapOutcome.wrapped
        else WrapOutcome.typeError) ∧
    (∀ c, Observ.mistral false c = WrapOutcome.importError) ∧
    (∀ c, Observ.mistral true c
      = if c = ClientKind.mistralClient then WrapOutcome.wrapped
        else WrapOutcome.typeError) ∧
    (∀ c, Observ.openrouter false c = WrapOutcome.importError) ∧
    (∀ c, Observ.openrouter true c
      = if c = ClientKind.openaiClient then WrapOutcome.wrapped
        else WrapOutcome.typeError) :=
  ⟨fun _ _ => rfl, fun _ b => by cases b <;> simp [Observ.anthropic],
    fun _ b => by cases b <;> simp [Observ.anthropic],
    fun _ => rfl, fun _ => rfl, fun _ => rfl, fun _ => rfl, fun _ => rfl,
    fun _ => rfl, fun _ => rfl, fun _ => rfl, fun _ => rfl, fun _ => rfl⟩

/-- C6: for an OpenAI-shaped response, the callback reporter posts
`tokens_used` equal to `usage.total_tokens` when that field exists (any
further usage fields ignored), otherwise to `prompt_tokens +
completion_tokens` when both exist, otherwise to 0 when `usage` is absent;
`content` is the first choice's message content with falsy values
(absent/None per the `or ""` coercion) replaced by the empty string.  The
response carries arbitrary further fields (`rest`, `urest`) where they do
not affect the consulted keys, matching the real SDK objects. -/
theorem c6_openai_callback_token_extraction (trace_id : PyVal)
    (duration_ms : Nat) (c : PyVal) (t p q : Int)
    (rest urest : List (String × PyVal)) :
    send_callback_openai (.ok ()) trace_id
        (.obj
          (("choices", .list [.obj [("message", .obj [("content", c)])]]) ::
            ("usage", .obj (("total_tokens", .int t) :: urest)) :: rest))
        duration_ms
      = .posted
          { trace_id := trace_id
            content := if pyTruthy c then c else .str ""
            duration_ms := duration_ms
            tokens_used := .int t } ∧
    send_callback_openai (.ok ()) trace_id
        (.obj
          (("choices", .list [.obj [("message", .obj [("content", c)])]]) ::
            ("usage",
              .obj
                [("prompt_tokens", .int p),
                  ("completion_tokens", .int q)]) :: rest))
        duration_ms
      = .posted
          { trace_id := trace_id
            content := if pyTruthy c then c else .str ""
            duration_ms := duration_ms
            tokens_used := .int (p + q) } ∧
    send_callback_openai (.ok ()) trace_id
        (.obj [("choices", .list [.obj [("message", .obj [("content", c)])]])])
        duration_ms
      = .posted
          { trace_id := trace_id
            content := if pyTruthy c then c else .str ""
            duration_ms := duration_ms
            tokens_used := .int 0 } :=
  ⟨rfl, rfl, rfl⟩

/-- C2: for every provider, when the gateway decision has action
`cache_hit` with content `x`, the intercepted call returns the synthesized
response exposing `x` via the provider's canonical content path
(`content[0].text` for Anthropic, `choices[0].message.content` for
Mistral, `text` for Gemini) with all usage/token fields zero, the real
wrapped SDK call is not invoked, and no callback is posted. -/
theorem c2_cache_hit_synthesis (wt : Observ) (dur : Nat)
    (post : Except PyErr Unit) (x : PyVal)
    (stA : WrapperState) (aA : CallArgs)
    (realA : CallArgs → Nat → Except PyErr PyVal)
    (kvsA : List (String × PyVal)) (gmA : List GatewayMessage)
    (hA0 : convert_messages_to_gateway_format aA.messages = .ok gmA)
    (hA1 : kvsA.lookup "action" = some (.str "cache_hit"))
    (hA2 : kvsA.lookup "content" = some x)
    (stM : WrapperState) (aM : CallArgs)
    (realM : CallArgs → Nat → Except PyErr PyVal)
    (kvsM : List (String × PyVal)) (gmM : List GatewayMessage)
    (hM0 : convert_messages_to_gateway_format aM.messages = .ok gmM)
    (hM1 : kvsM.lookup "action" = some (.str "cache_hit"))
    (hM2 : kvsM.lookup "content" = some x)
    (mn : Option String) (stG : WrapperState) (aG : GeminiArgs)
    (realG : GeminiArgs → Nat → Except PyErr PyVal)
    (kvsG : List (String × PyVal)) (gmG : List GatewayMessage)
    (hG0 : geminiNormalizePrompt aG.prompt = .ok gmG)
    (hG1 : kvsG.lookup "action" = some (.str "cache_hit"))
    (hG2 : kvsG.lookup "content" = some x) :
    ((AnthropicMessagesWrapper.create
        ⟨.ok (.dict kvsA), realA, dur, post⟩ wt stA aA).1
      = .ok (.synthesized
          (synthAnthropicMessage x (aA.modelOr "claude-3-5-sonnet-20241022"))) ∧
      (AnthropicMessagesWrapper.create
        ⟨.ok (.dict kvsA), realA, dur, post⟩ wt stA aA).2.2.realArgs = [] ∧
      (AnthropicMessagesWrapper.create
        ⟨.ok (.dict kvsA), realA, dur, post⟩ wt stA aA).2.2.callbacks = [] ∧
      (synthAnthropicMessage x (aA.modelOr "claude-3-5-sonnet-20241022")).content.map
          (fun b => b.text) = [x] ∧
      (synthAnthropicMessage x (aA.modelOr "claude-3-5-sonnet-20241022")).usage
        = { input_tokens := 0, output_tokens := 0 }) ∧
    ((MistralChatCompletionsWrapper.create
        ⟨.ok (.dict kvsM), realM, dur, post⟩ wt stM aM).1
      = .ok (.synthesized
          (synthChatCompletionResponse x (aM.modelOr "mistral-large-latest"))) ∧
      (MistralChatCompletionsWrapper.create
        ⟨.ok (.dict kvsM), realM, dur, post⟩ wt stM aM).2.2.realArgs = [] ∧
      (MistralChatCompletionsWrapper.create
        ⟨.ok (.dict kvsM), realM, dur, post⟩ wt stM aM).2.2.callbacks = [] ∧
      (synthChatCompletionResponse x (aM.modelOr "mistral-large-latest")).choices.map
          (fun ch => ch.message.content) = [x] ∧
      (synthChatCompletionResponse x (aM.modelOr "mistral-large-latest")).usage
        = { prompt_tokens := 0, completion_tokens := 0, total_tokens := 0 }) ∧
    ((GeminiGenerateContentWrapper.generate_content
        ⟨.ok (.dict kvsG), realG, dur, post⟩ wt mn stG aG).1
      = .ok (.synthesized (synthGenerateContentResponse x)) ∧
      (GeminiGenerateContentWrapper.generate_content
        ⟨.ok (.dict kvsG), realG, dur, post⟩ wt mn stG aG).2.2.realArgs = [] ∧
      (GeminiGenerateContentWrapper.generate_content
        ⟨.ok (.dict kvsG), realG, dur, post⟩ wt mn stG aG).2.2.callbacks = [] ∧
      (synthGenerateContentResponse x).text = x ∧
      (synthGenerateContentResponse x).usage_metadata
        = { prompt_token_count := 0, candidates_token_count := 0
            total_token_count := 0 }) := by
  refine ⟨⟨?_, ?_, ?_, rfl, rfl⟩, ⟨?_, ?_, ?_, rfl, rfl⟩, ⟨?_, ?_, ?_, rfl, rfl⟩⟩ <;>
    simp [AnthropicMessagesWrapper.create, MistralChatCompletionsWrapper.create,
      GeminiGenerateContentWrapper.generate_content, hA0, hA1, hA2, hM0, hM1,
      hM2, hG0, hG1, hG2, isCacheHit]

/-- C1: for every provider adapter, when the gateway decide POST raises
any exception (network error, non-2xx via `raise_for_status`, malformed
JSON — all collapsed into `decide = .error e`), the intercepted call
invokes the original wrapped SDK call exactly once with the original
arguments, returns its response, and no exception from the gateway path
escapes to the caller. -/
theorem c1_gateway_error_falls_back (wt : Observ) (dur : Nat)
    (post : Except PyErr Unit) (e : PyErr)
    (stA : WrapperState) (aA : CallArgs)
    (realA : CallArgs → Nat → Except PyErr PyVal) (rA : PyVal)
    (gmA : List GatewayMessage)
    (hA0 : convert_messages_to_gateway_format aA.messages = .ok gmA)
    (hA1 : realA aA 0 = .ok rA)
    (stM : WrapperState) (aM : CallArgs)
    (realM : CallArgs → Nat → Except PyErr PyVal) (rM : PyVal)
    (gmM : List GatewayMessage)
    (hM0 : convert_messages_to_gateway_format aM.messages = .ok gmM)
    (hM1 : realM aM 0 = .ok rM)
    (mn : Option String) (stG : WrapperState) (aG : GeminiArgs)
    (realG : GeminiArgs → Nat → Except PyErr PyVal) (rG : PyVal)
    (gmG : List GatewayMessage)
    (hG0 : geminiNormalizePrompt aG.prompt = .ok gmG)
    (hG1 : realG aG 0 = .ok rG)
    (provO dmO : String) (stO : WrapperState) (aO : CallArgs)
    (realO : CallArgs → Nat → Except PyErr PyVal) (rO : PyVal)
    (gmO : List GatewayMessage)
    (hO0 : convert_messages_to_gateway_format aO.messages = .ok gmO)
    (hO1 : realO aO 0 = .ok rO) :
    ((AnthropicMessagesWrapper.create ⟨.error e, realA, dur, post⟩ wt stA aA).1
      = .ok (.real rA) ∧
      (AnthropicMessagesWrapper.create
        ⟨.error e, realA, dur, post⟩ wt stA aA).2.2.realArgs = [aA]) ∧
    ((MistralChatCompletionsWrapper.create
        ⟨.error e, realM, dur, post⟩ wt stM aM).1 = .ok (.real rM) ∧
      (MistralChatCompletionsWrapper.create
        ⟨.error e, realM, dur, post⟩ wt stM aM).2.2.realArgs = [aM]) ∧
    ((GeminiGenerateContentWrapper.generate_content
        ⟨.error e, realG, dur, post⟩ wt mn stG aG).1 = .ok (.real rG) ∧
      (GeminiGenerateContentWrapper.generate_content
        ⟨.error e, realG, dur, post⟩ wt mn stG aG).2.2.realArgs = [aG]) ∧
    ((OpenAICompatWrapper.create provO dmO
        ⟨.error e, realO, dur, post⟩ wt stO aO).1 = .ok (.real rO) ∧
      (OpenAICompatWrapper.create provO dmO
        ⟨.error e, realO, dur, post⟩ wt stO aO).2.2.realArgs = [aO]) := by
  refine ⟨⟨?_, ?_⟩, ⟨?_, ?_⟩, ⟨?_, ?_⟩, ⟨?_, ?_⟩⟩ <;>
    simp [AnthropicMessagesWrapper.create, MistralChatCompletionsWrapper.create,
      GeminiGenerateContentWrapper.generate_content, OpenAICompatWrapper.create,
      hA0, hA1, hM0, hM1, hG0, hG1, hO0, hO1, fallbackResult]

/-- C1 witness: concrete instantiation — decide raises a network error,
the stub real call succeeds, and the Anthropic adapter returns the real
response. -/
theorem c1_witness :
    (AnthropicMessagesWrapper.create
      ⟨.error .networkError, fun _ _ => .ok (.str "real"), 5, .ok ()⟩
      { api_key := "k" } WrapperState.init
      { posMessages := none, posModel := none
        kwMessages := some (.list []), kwModel := some "m" }).1
      = .ok (.real (.str "real")) :=
  (c1_gateway_error_falls_back { api_key := "k" } 5 (.ok ()) .networkError
    WrapperState.init
    { posMessages := none, posModel := none
      kwMessages := some (.list []), kwModel := some "m" }
    (fun _ _ => .ok (.str "real")) (.str "real") [] rfl rfl
    WrapperState.init
    { posMessages := none, posModel := none
      kwMessages := some (.list []), kwModel := some "m" }
    (fun _ _ => .ok (.str "real")) (.str "real") [] rfl rfl
    none WrapperState.init
    { pos0 := none, kwPrompt := some (.str "hi"), kwContents := none }
    (fun _ _ => .ok (.str "real")) (.str "real")
    [{ role := .str "user", content := .str "hi" }] rfl rfl
    "openai" "gpt-4o" WrapperState.init
    { posMessages := none, posModel := none
      kwMessages := some (.list []), kwModel := some "m" }
    (fun _ _ => .ok (.str "real")) (.str "real") [] rfl rfl).1.1

/-- C5: for every provider, with the gateway returning a non-cache
decision, the intercepted call invokes the real wrapped SDK call exactly
once with the original arguments, returns exactly the object the unwrapped
client would return for those arguments (the very response value, all
fields included), and invokes the family's callback reporter with the
decision's trace id, that response and the measured duration. -/
theorem c5_passthrough_returns_real_response (wt : Observ) (dur : Nat)
    (post : Except PyErr Unit)
    (stA : WrapperState) (aA : CallArgs)
    (realA : CallArgs → Nat → Except PyErr PyVal) (rA : PyVal)
    (kvsA : List (String × PyVal)) (gmA : List GatewayMessage)
    (hA0 : convert_messages_to_gateway_format aA.messages = .ok gmA)
    (hA1 : isCacheHit ((kvsA.lookup "action").getD .pynone) = false)
    (hA2 : realA aA 0 = .ok rA)
    (stM : WrapperState) (aM : CallArgs)
    (realM : CallArgs → Nat → Except PyErr PyVal) (rM : PyVal)
    (kvsM : List (String × PyVal)) (gmM : List GatewayMessage)
    (hM0 : convert_messages_to_gateway_format aM.messages = .ok gmM)
    (hM1 : isCacheHit ((kvsM.lookup "action").getD .pynone) = false)
    (hM2 : realM aM 0 = .ok rM)
    (mn : Option String) (stG : WrapperState) (aG : GeminiArgs)
    (realG : GeminiArgs → Nat → Except PyErr PyVal) (rG : PyVal)
    (kvsG : List (String × PyVal)) (gmG : List GatewayMessage)
    (hG0 : geminiNormalizePrompt aG.prompt = .ok gmG)
    (hG1 : isCacheHit ((kvsG.lookup "action").getD .pynone) = false)
    (hG2 : realG aG 0 = .ok rG)
    (provO dmO : String) (stO : WrapperState) (aO : CallArgs)
    (realO : CallArgs → Nat → Except PyErr PyVal) (rO : PyVal)
    (kvsO : List (String × PyVal)) (gmO : List GatewayMessage)
    (hO0 : convert_messages_to_gateway_format aO.messages = .ok gmO)
    (hO1 : isCacheHit ((kvsO.lookup "action").getD .pynone) = false)
    (hO2 : realO aO 0 = .ok rO) :
    ((AnthropicMessagesWrapper.create
        ⟨.ok (.dict kvsA), realA, dur, post⟩ wt stA aA).1 = .ok (.real rA) ∧
      (AnthropicMessagesWrapper.create
        ⟨.ok (.dict kvsA), realA, dur, post⟩ wt stA aA).2.2.realArgs = [aA] ∧
      (AnthropicMessagesWrapper.create
        ⟨.ok (.dict kvsA), realA, dur, post⟩ wt stA aA).2.2.callbacks
        = [send_callback post ((kvsA.lookup "trace_id").getD .pynone) rA dur]) ∧
    ((MistralChatCompletionsWrapper.create
        ⟨.ok (.dict kvsM), realM, dur, post⟩ wt stM aM).1 = .ok (.real rM) ∧
      (MistralChatCompletionsWrapper.create
        ⟨.ok (.dict kvsM), realM, dur, post⟩ wt stM aM).2.2.realArgs = [aM] ∧
      (MistralChatCompletionsWrapper.create
        ⟨.ok (.dict kvsM), realM, dur, post⟩ wt stM aM).2.2.callbacks
        = [send_callback_mistral post
            ((kvsM.lookup "trace_id").getD .pynone) rM dur]) ∧
    ((GeminiGenerateContentWrapper.generate_content
        ⟨.ok (.dict kvsG), realG, dur, post⟩ wt mn stG aG).1 = .ok (.real rG) ∧
      (GeminiGenerateContentWrapper.generate_content
        ⟨.ok (.dict kvsG), realG, dur, post⟩ wt mn stG aG).2.2.realArgs = [aG] ∧
      (GeminiGenerateContentWrapper.generate_content
        ⟨.ok (.dict kvsG), realG, dur, post⟩ wt mn stG aG).2.2.callbacks
        = [send_callback_gemini post
            ((kvsG.lookup "trace_id").getD .pynone) rG dur]) ∧
    ((OpenAICompatWrapper.create provO dmO
        ⟨.ok (.dict kvsO), realO, dur, post⟩ wt stO aO).1 = .ok (.real rO) ∧
      (OpenAICompatWrapper.create provO dmO
        ⟨.ok (.dict kvsO), realO, dur, post⟩ wt stO aO).2.2.realArgs = [aO] ∧
      (OpenAICompatWrapper.create provO dmO
        ⟨.ok (.dict kvsO), realO, dur, post⟩ wt stO aO).2.2.callbacks
        = [send_callback_openai post
            ((kvsO.lookup "trace_id").getD .pynone) rO dur]) := by
  refine ⟨⟨?_, ?_, ?_⟩, ⟨?_, ?_, ?_⟩, ⟨?_, ?_, ?_⟩, ⟨?_, ?_, ?_⟩⟩ <;>
    simp [AnthropicMessagesWrapper.create, MistralChatCompletionsWrapper.create,
      GeminiGenerateContentWrapper.generate_content, OpenAICompatWrapper.create,
      hA0, hA1, hA2, hM0, hM1, hM2, hG0, hG1, hG2, hO0, hO1, hO2]

/-- C5 witness: concrete instantiation — a pass-through decision with a
stub provider response, returned unchanged by the Mistral adapter. -/
theorem c5_witness :
    (MistralChatCompletionsWrapper.create
      ⟨.ok (.dict [("action", .str "proceed"), ("trace_id", .str "t1")]),
        fun _ _ => .ok (.obj [("id", .str "resp-1")]), 9, .ok ()⟩
      { api_key := "k" } WrapperState.init
      { posMessages := none, posModel := none
        kwMessages := some (.list []), kwModel := some "m" }).1
      = .ok (.real (.obj [("id", .str "resp-1")])) :=
  (c5_passthrough_returns_real_response { api_key := "k" } 9 (.ok ())
    WrapperState.init
    { posMessages := none, posModel := none
      kwMessages := some (.list []), kwModel := some "m" }
    (fun _ _ => .ok (.obj [("id", .str "resp-1")]))
    (.obj [("id", .str "resp-1")])
    [("action", .str "proceed"), ("trace_id", .str "t1")] [] rfl rfl rfl
    WrapperState.init
    { posMessages := none, posModel := none
      kwMessages := some (.list []), kwModel := some "m" }
    (fun _ _ => .ok (.obj [("id", .str "resp-1")]))
    (.obj [("id", .str "resp-1")])
    [("action", .str "proceed"), ("trace_id", .str "t1")] [] rfl rfl rfl
    none WrapperState.init
    { pos0 := none, kwPrompt := some (.str "hi"), kwContents := none }
    (fun _ _ => .ok (.obj [("id", .str "resp-1")]))
    (.obj [("id", .str "resp-1")])
    [("action", .str "proceed"), ("trace_id", .str "t1")]
    [{ role := .str "user", content := .str "hi" }] rfl rfl rfl
    "openai" "gpt-4o" WrapperState.init
    { posMessages := none, posModel := none
      kwMessages := some (.list []), kwModel := some "m" }
    (fun _ _ => .ok (.obj [("id", .str "resp-1")]))
    (.obj [("id", .str "resp-1")])
    [("action", .str "proceed"), ("trace_id", .str "t1")] [] rfl rfl rfl).2.1.1

/-- C2 witness: concrete instantiation — a cache-hit decision with content
"X" makes the Anthropic adapter return the synthesized message carrying
"X". -/
theorem c2_witness :
    (AnthropicMessagesWrapper.create
      ⟨.ok (.dict [("action", .str "cache_hit"), ("content", .str "X")]),
        fun _ _ => .ok .pynone, 4, .ok ()⟩
      { api_key := "k" } WrapperState.init
      { posMessages := none, posModel := none
        kwMessages := some (.list []), kwModel := some "m" }).1
      = .ok (.synthesized (synthAnthropicMessage (.str "X") "m")) :=
  (c2_cache_hit_synthesis { api_key := "k" } 4 (.ok ()) (.str "X")
    WrapperState.init
    { posMessages := none, posModel := none
      kwMessages := some (.list []), kwModel := some "m" }
    (fun _ _ => .ok .pynone)
    [("action", .str "cache_hit"), ("content", .str "X")] [] rfl rfl rfl
    WrapperState.init
    { posMessages := none, posModel := none
      kwMessages := some (.list []), kwModel := some "m" }
    (fun _ _ => .ok .pynone)
    [("action", .str "cache_hit"), ("content", .str "X")] [] rfl rfl rfl
    none WrapperState.init
    { pos0 := none, kwPrompt := some (.str "hi"), kwContents := none }
    (fun _ _ => .ok .pynone)
    [("action", .str "cache_hit"), ("content", .str "X")]
    [{ role := .str "user", content := .str "hi" }] rfl rfl rfl).1.1

/-- C10: on the pass-through path the real SDK call runs inside the same
try block as the gateway decide call, so when the real call itself raises,
the except branch invokes the original SDK call a second time with the
same arguments, and the caller observes that second invocation's outcome —
its response or its exception — instead of the single invocation an
unwrapped client would perform. -/
theorem c10_real_call_exception_retries (wt : Observ) (dur : Nat)
    (post : Except PyErr Unit) (e : PyErr)
    (stA : WrapperState) (aA : CallArgs)
    (realA : CallArgs → Nat → Except PyErr PyVal)
    (kvsA : List (String × PyVal)) (gmA : List GatewayMessage)
    (hA0 : convert_messages_to_gateway_format aA.messages = .ok gmA)
    (hA1 : isCacheHit ((kvsA.lookup "action").getD .pynone) = false)
    (hA2 : realA aA 0 = .error e)
    (stM : WrapperState) (aM : CallArgs)
    (realM : CallArgs → Nat → Except PyErr PyVal)
    (kvsM : List (String × PyVal)) (gmM : List GatewayMessage)
    (hM0 : convert_messages_to_gateway_format aM.messages = .ok gmM)
    (hM1 : isCacheHit ((kvsM.lookup "action").getD .pynone) = false)
    (hM2 : realM aM 0 = .error e)
    (mn : Option String) (stG : WrapperState) (aG : GeminiArgs)
    (realG : GeminiArgs → Nat → Except PyErr PyVal)
    (kvsG : List (String × PyVal)) (gmG : List GatewayMessage)
    (hG0 : geminiNormalizePrompt aG.prompt = .ok gmG)
    (hG1 : isCacheHit ((kvsG.lookup "action").getD .pynone) = false)
    (hG2 : realG aG 0 = .error e)
    (provO dmO : String) (stO : WrapperState) (aO : CallArgs)
    (realO : CallArgs → Nat → Except PyErr PyVal)
    (kvsO : List (String × PyVal)) (gmO : List GatewayMessage)
    (hO0 : convert_messages_to_gateway_format aO.messages = .ok gmO)
    (hO1 : isCacheHit ((kvsO.lookup "action").getD .pynone) = false)
    (hO2 : realO aO 0 = .error e) :
    ((AnthropicMessagesWrapper.create
        ⟨.ok (.dict kvsA), realA, dur, post⟩ wt stA aA).2.2.realArgs
      = [aA, aA] ∧
      (AnthropicMessagesWrapper.create
        ⟨.ok (.dict kvsA), realA, dur, post⟩ wt stA aA).1
        = fallbackResult (realA aA 1)) ∧
    ((MistralChatCompletionsWrapper.create
        ⟨.ok (.dict kvsM), realM, dur, post⟩ wt stM aM).2.2.realArgs
      = [aM, aM] ∧
      (MistralChatCompletionsWrapper.create
        ⟨.ok (.dict kvsM), realM, dur, post⟩ wt stM aM).1
        = fallbackResult (realM aM 1)) ∧
    ((GeminiGenerateContentWrapper.generate_content
        ⟨.ok (.dict kvsG), realG, dur, post⟩ wt mn stG aG).2.2.realArgs
      = [aG, aG] ∧
      (GeminiGenerateContentWrapper.generate_content
        ⟨.ok (.dict kvsG), realG, dur, post⟩ wt mn stG aG).1
        = fallbackResult (realG aG 1)) ∧
    ((OpenAICompatWrapper.create provO dmO
        ⟨.ok (.dict kvsO), realO, dur, post⟩ wt stO aO).2.2.realArgs
      = [aO, aO] ∧
      (OpenAICompatWrapper.create provO dmO
        ⟨.ok (.dict kvsO), realO, dur, post⟩ wt stO aO).1
        = fallbackResult (realO aO 1)) := by
  refine ⟨⟨?_, ?_⟩, ⟨?_, ?_⟩, ⟨?_, ?_⟩, ⟨?_, ?_⟩⟩ <;>
    simp [AnthropicMessagesWrapper.create, MistralChatCompletionsWrapper.create,
      GeminiGenerateContentWrapper.generate_content, OpenAICompatWrapper.create,
      hA0, hA1, hA2, hM0, hM1, hM2, hG0, hG1, hG2, hO0, hO1, hO2]

/-- C10 witness: concrete instantiation — the real call raises on its
first invocation and succeeds on the second; the Anthropic adapter issues
two invocations with the same arguments. -/
theorem c10_witness :
    (AnthropicMessagesWrapper.create
      ⟨.ok (.dict [("action", .str "proceed"), ("trace_id", .str "t1")]),
        fun _ n => if n = 0 then .error .networkError else .ok (.str "second"),
        3, .ok ()⟩
      { api_key := "k" } WrapperState.init
      { posMessages := none, posModel := none
        kwMessages := some (.list []), kwModel := some "m" }).2.2.realArgs
      = [{ posMessages := none, posModel := none
           kwMessages := some (.list []), kwModel := some "m" },
         { posMessages := none, posModel := none
           kwMessages := some (.list []), kwModel := some "m" }] :=
  (c10_real_call_exception_retries { api_key := "k" } 3 (.ok ())
    .networkError WrapperState.init
    { posMessages := none, posModel := none
      kwMessages := some (.list []), kwModel := some "m" }
    (fun _ n => if n = 0 then .error .networkError else .ok (.str "second"))
    [("action", .str "proceed"), ("trace_id", .str "t1")] [] rfl rfl rfl
    WrapperState.init
    { posMessages := none, posModel := none
      kwMessages := some (.list []), kwModel := some "m" }
    (fun _ n => if n = 0 then .error .networkError else .ok (.str "second"))
    [("action", .str "proceed"), ("trace_id", .str "t1")] [] rfl rfl rfl
    none WrapperState.init
    { pos0 := none, kwPrompt := some (.str "hi"), kwContents := none }
    (fun _ n => if n = 0 then .error .networkError else .ok (.str "second"))
    [("action", .str "proceed"), ("trace_id", .str "t1")]
    [{ role := .str "user", content := .str "hi" }] rfl rfl rfl
    "openai" "gpt-4o" WrapperState.init
    { posMessages := none, posModel := none
      kwMessages := some (.list []), kwModel := some "m" }
    (fun _ n => if n = 0 then .error .networkError else .ok (.str "second"))
    [("action", .str "proceed"), ("trace_id", .str "t1")] [] rfl rfl rfl).1.1

/-- Helper: once message conversion succeeds, the Anthropic adapter hands
exactly one envelope — built from the consumed chained state — to the
decide POST and leaves the pending state reset, whatever the gateway,
real-call and callback outcomes are. -/
theorem anthropic_posts_and_reset (env : Env CallArgs) (wt : Observ)
    (st : WrapperState) (a : CallArgs) (gm : List GatewayMessage)
    (h : convert_messages_to_gateway_format a.messages = .ok gm) :
    (AnthropicMessagesWrapper.create env wt st a).2.2.posts
      = [build_completion_request "anthropic"
          (a.modelOr "claude-3-5-sonnet-20241022") gm wt st.metadata
          st.sessionId] ∧
    (AnthropicMessagesWrapper.create env wt st a).2.1 = WrapperState.init := by
  cases env with
  | mk d r du po =>
    cases d with
    | error e => simp [AnthropicMessagesWrapper.create, h]
    | ok v =>
      cases v <;> simp only [AnthropicMessagesWrapper.create, h] <;>
          try (constructor <;> trivial)
      split
      · constructor <;> trivial
      · split <;> (constructor <;> trivial)

/-- Helper: envelope emission and state reset for the Mistral adapter. -/
theorem mistral_posts_and_reset (env : Env CallArgs) (wt : Observ)
    (st : WrapperState) (a : CallArgs) (gm : List GatewayMessage)
    (h : convert_messages_to_gateway_format a.messages = .ok gm) :
    (MistralChatCompletionsWrapper.create env wt st a).2.2.posts
      = [build_completion_request "mistral" (a.modelOr "mistral-large-latest")
          gm wt st.metadata st.sessionId] ∧
    (MistralChatCompletionsWrapper.create env wt st a).2.1
      = WrapperState.init := by
  cases env with
  | mk d r du po =>
    cases d with
    | error e => simp [MistralChatCompletionsWrapper.create, h]
    | ok v =>
      cases v <;> simp only [MistralChatCompletionsWrapper.create, h] <;>
          try (constructor <;> trivial)
      split
      · constructor <;> trivial
      · split <;> (constructor <;> trivial)

/-- Helper: envelope emission and state reset for the Gemini adapter. -/
theorem gemini_posts_and_reset (env : Env GeminiArgs) (wt : Observ)
    (mn : Option String) (st : WrapperState) (a : GeminiArgs)
    (gm : List GatewayMessage)
    (h : geminiNormalizePrompt a.prompt = .ok gm) :
    (GeminiGenerateContentWrapper.generate_content env wt mn st a).2.2.posts
      = [build_completion_request "gemini" (mn.getD "gemini-pro") gm wt
          st.metadata st.sessionId] ∧
    (GeminiGenerateContentWrapper.generate_content env wt mn st a).2.1
      = WrapperState.init := by
  cases env with
  | mk d r du po =>
    cases d with
    | error e => simp [GeminiGenerateContentWrapper.generate_content, h]
    | ok v =>
      cases v <;>
          simp only [GeminiGenerateContentWrapper.generate_content, h] <;>
          try (constructor <;> trivial)
      split
      · constructor <;> trivial
      · split <;> (constructor <;> trivial)

/-- Helper: envelope emission and state reset for the spec-modelled
OpenAI-compatible adapter. -/
theorem openai_compat_posts_and_reset (provider defaultModel : String)
    (env : Env CallArgs) (wt : Observ) (st : WrapperState) (a : CallArgs)
    (gm : List GatewayMessage)
    (h : convert_messages_to_gateway_format a.messages = .ok gm) :
    (OpenAICompatWrapper.create provider defaultModel env wt st a).2.2.posts
      = [build_completion_request provider (a.modelOr defaultModel) gm wt
          st.metadata st.sessionId] ∧
    (OpenAICompatWrapper.create provider defaultModel env wt st a).2.1
      = WrapperState.init := by
  cases env with
  | mk d r du po =>
    cases d with
    | error e => simp [OpenAICompatWrapper.create, h]
    | ok v =>
      cases v <;> simp only [OpenAICompatWrapper.create, h] <;>
          try (constructor <;> trivial)
      split
      · constructor <;> trivial
      · split <;> (constructor <;> trivial)

/-- C3 counterexample: chaining `with_metadata` and `with_session_id` with
the empty-string session id and calling once produces an envelope WITHOUT
the `external_session_id` key — `build_completion_request` guards the key
with Python truthiness (`if session_id:`), so the claim's promised
`external_session_id = s` fails at `s = ""`. -/
theorem c3_counterexample_empty_session_id :
    ((AnthropicMessagesWrapper.create
        ⟨.ok (.dict []), fun _ _ => .ok .pynone, 0, .ok ()⟩
        { api_key := "k" }
        ((WrapperState.init.with_metadata [("k", .str "v")]).with_session_id "")
        { posMessages := none, posModel := none
          kwMessages := some (.list []), kwModel := some "m" }).2.2.posts.map
        (fun req => req.external_session_id)) = [none] ∧
      (none : Option String) ≠ some "" :=
  ⟨rfl, by decide⟩

/-- C3 amended: for every provider adapter, chaining `with_metadata m` and
`with_session_id s` with a NONEMPTY `s` and calling once hands the decide
POST exactly one envelope with `metadata = m` and `external_session_id =
s`; a subsequent call without chaining produces an envelope with empty
metadata and no `external_session_id` key; and the pending chained state
is reset to empty before the gateway network call — whatever the gateway,
real-call and callback outcomes — so a failure mid-call never leaves stale
chained state.  (With `s = ""` the `external_session_id` key is omitted,
by the truthiness guard in `build_completion_request`.) -/
theorem c3_amended_chained_state_consumed_once (wt : Observ)
    (m : List (String × PyVal)) (s : String) (hs : s ≠ "")
    (envA envA2 : Env CallArgs) (aA aA2 : CallArgs)
    (gmA gmA2 : List GatewayMessage)
    (hA0 : convert_messages_to_gateway_format aA.messages = .ok gmA)
    (hA1 : convert_messages_to_gateway_format aA2.messages = .ok gmA2)
    (envM envM2 : Env CallArgs) (aM aM2 : CallArgs)
    (gmM gmM2 : List GatewayMessage)
    (hM0 : convert_messages_to_gateway_format aM.messages = .ok gmM)
    (hM1 : convert_messages_to_gateway_format aM2.messages = .ok gmM2)
    (mn : Option String) (envG envG2 : Env GeminiArgs) (aG aG2 : GeminiArgs)
    (gmG gmG2 : List GatewayMessage)
    (hG0 : geminiNormalizePrompt aG.prompt = .ok gmG)
    (hG1 : geminiNormalizePrompt aG2.prompt = .ok gmG2)
    (provO dmO : String) (envO envO2 : Env CallArgs) (aO aO2 : CallArgs)
    (gmO gmO2 : List GatewayMessage)
    (hO0 : convert_messages_to_gateway_format aO.messages = .ok gmO)
    (hO1 : convert_messages_to_gateway_format aO2.messages = .ok gmO2) :
    ((AnthropicMessagesWrapper.create envA wt
        ((WrapperState.init.with_metadata m).with_session_id s) aA).2.2.posts.map
        (fun req => (req.metadata, req.external_session_id)) = [(m, some s)] ∧
      (AnthropicMessagesWrapper.create envA wt
        ((WrapperState.init.with_metadata m).with_session_id s) aA).2.1
        = WrapperState.init ∧
      (AnthropicMessagesWrapper.create envA2 wt WrapperState.init
        aA2).2.2.posts.map
        (fun req => (req.metadata, req.external_session_id)) = [([], none)]) ∧
    ((MistralChatCompletionsWrapper.create envM wt
        ((WrapperState.init.with_metadata m).with_session_id s) aM).2.2.posts.map
        (fun req => (req.metadata, req.external_session_id)) = [(m, some s)] ∧
      (MistralChatCompletionsWrapper.create envM wt
        ((WrapperState.init.with_metadata m).with_session_id s) aM).2.1
        = WrapperState.init ∧
      (MistralChatCompletionsWrapper.create envM2 wt WrapperState.init
        aM2).2.2.posts.map
        (fun req => (req.metadata, req.external_session_id)) = [([], none)]) ∧
    ((GeminiGenerateContentWrapper.generate_content envG wt mn
        ((WrapperState.init.with_metadata m).with_session_id s) aG).2.2.posts.map
        (fun req => (req.metadata, req.external_session_id)) = [(m, some s)] ∧
      (GeminiGenerateContentWrapper.generate_content envG wt mn
        ((WrapperState.init.with_metadata m).with_session_id s) aG).2.1
        = WrapperState.init ∧
      (GeminiGenerateContentWrapper.generate_content envG2 wt mn
        WrapperState.init aG2).2.2.posts.map
        (fun req => (req.metadata, req.external_session_id)) = [([], none)]) ∧
    ((OpenAICompatWrapper.create provO dmO envO wt
        ((WrapperState.init.with_metadata m).with_session_id s) aO).2.2.posts.map
        (fun req => (req.metadata, req.external_session_id)) = [(m, some s)] ∧
      (OpenAICompatWrapper.create provO dmO envO wt
        ((WrapperState.init.with_metadata m).with_session_id s) aO).2.1
        = WrapperState.init ∧
      (OpenAICompatWrapper.create provO dmO envO2 wt WrapperState.init
        aO2).2.2.posts.map
        (fun req => (req.metadata, req.external_session_id)) = [([], none)]) := by
  refine
    ⟨⟨?_, (anthropic_posts_and_reset envA wt _ aA gmA hA0).2, ?_⟩,
      ⟨?_, (mistral_posts_and_reset envM wt _ aM gmM hM0).2, ?_⟩,
      ⟨?_, (gemini_posts_and_reset envG wt mn _ aG gmG hG0).2, ?_⟩,
      ⟨?_, (openai_compat_posts_and_reset provO dmO envO wt _ aO gmO hO0).2, ?_⟩⟩
  · rw [(anthropic_posts_and_reset envA wt _ aA gmA hA0).1]
    simp [build_completion_request, WrapperState.with_metadata,
      WrapperState.with_session_id, WrapperState.init, String.isEmpty_iff, hs]
  · rw [(anthropic_posts_and_reset envA2 wt _ aA2 gmA2 hA1).1]
    simp [build_completion_request, WrapperState.init]
  · rw [(mistral_posts_and_reset envM wt _ aM gmM hM0).1]
    simp [build_completion_request, WrapperState.with_metadata,
      WrapperState.with_session_id, WrapperState.init, String.isEmpty_iff, hs]
  · rw [(mistral_posts_and_reset envM2 wt _ aM2 gmM2 hM1).1]
    simp [build_completion_request, WrapperState.init]
  · rw [(gemini_posts_and_reset envG wt mn _ aG gmG hG0).1]
    simp [build_completion_request, WrapperState.with_metadata,
      WrapperState.with_session_id, WrapperState.init, String.isEmpty_iff, hs]
  · rw [(gemini_posts_and_reset envG2 wt mn _ aG2 gmG2 hG1).1]
    simp [build_completion_request, WrapperState.init]
  · rw [(openai_compat_posts_and_reset provO dmO envO wt _ aO gmO hO0).1]
    simp [build_completion_request, WrapperState.with_metadata,
      WrapperState.with_session_id, WrapperState.init, String.isEmpty_iff, hs]
  · rw [(openai_compat_posts_and_reset provO dmO envO2 wt _ aO2 gmO2 hO1).1]
    simp [build_completion_request, WrapperState.init]

/-- C3 witness: concrete instantiation — chaining metadata and session id
"s1" then calling once posts one envelope carrying both; the amended
theorem applies with every hypothesis discharged at these inputs. -/
theorem c3_witness :
    (AnthropicMessagesWrapper.create
        ⟨.ok (.dict []), fun _ _ => .ok .pynone, 0, .ok ()⟩ { api_key := "k" }
        ((WrapperState.init.with_metadata [("k", .str "v")]).with_session_id
          "s1")
        { posMessages := none, posModel := none
          kwMessages := some (.list []), kwModel := some "m" }).2.2.posts.map
        (fun req => (req.metadata, req.external_session_id))
      = [([("k", .str "v")], some "s1")] :=
  (c3_amended_chained_state_consumed_once { api_key := "k" }
    [("k", .str "v")] "s1" (by decide)
    ⟨.ok (.dict []), fun _ _ => .ok .pynone, 0, .ok ()⟩
    ⟨.ok (.dict []), fun _ _ => .ok .pynone, 0, .ok ()⟩
    { posMessages := none, posModel := none
      kwMessages := some (.list []), kwModel := some "m" }
    { posMessages := none, posModel := none
      kwMessages := some (.list []), kwModel := some "m" }
    [] [] rfl rfl
    ⟨.ok (.dict []), fun _ _ => .ok .pynone, 0, .ok ()⟩
    ⟨.ok (.dict []), fun _ _ => .ok .pynone, 0, .ok ()⟩
    { posMessages := none, posModel := none
      kwMessages := some (.list []), kwModel := some "m" }
    { posMessages := none, posModel := none
      kwMessages := some (.list []), kwModel := some "m" }
    [] [] rfl rfl
    none
    ⟨.ok (.dict []), fun _ _ => .ok .pynone, 0, .ok ()⟩
    ⟨.ok (.dict []), fun _ _ => .ok .pynone, 0, .ok ()⟩
    { pos0 := none, kwPrompt := some (.str "hi"), kwContents := none }
    { pos0 := none, kwPrompt := some (.str "hi"), kwContents := none }
    [{ role := .str "user", content := .str "hi" }]
    [{ role := .str "user", content := .str "hi" }] rfl rfl
    "openai" "gpt-4o"
    ⟨.ok (.dict []), fun _ _ => .ok .pynone, 0, .ok ()⟩
    ⟨.ok (.dict []), fun _ _ => .ok .pynone, 0, .ok ()⟩
    { posMessages := none, posModel := none
      kwMessages := some (.list []), kwModel := some "m" }
    { posMessages := none, posModel := none
      kwMessages := some (.list []), kwModel := some "m" }
    [] [] rfl rfl).1.1
